import Mathlib

/-
Verification of the KeyAuth seller client's request dispatch pipeline
(src/packages/seller/src/seller/index.ts) against its specification.

The dispatcher Api._makeRequest is embedded shallowly: one invocation of the
method corresponds to one element of a trace of attempt environments (did
hasHitRateLimit() return true, and otherwise what the HTTP layer delivered);
Date.now() is modelled by a clock indexed by call count; the event emitter
and the logger are modelled as output streams collected by the run.
-/

namespace KeyauthSeller

/-- Endpoint request parameters (interface MakeRequestParams): the endpoint
type tag plus the remaining string fields of the query object. -/
structure Params where
  type : String
  fields : List (String × String)
deriving DecidableEq

/-- The structured body the server returns (interface BaseResponse plus any
endpoint-specific fields, kept as an association list). -/
structure ApiData where
  success : Bool
  message : String
  rest : List (String × String)
deriving DecidableEq

/-- Argument object of Api._makeRequest (interface MakeRequest); the two
optional skip flags default to false, matching undefined being falsy. -/
structure MakeRequest where
  params : Params
  skipResponse : Bool := false
  skipError : Bool := false
deriving DecidableEq

/-- Payload of an emitted event, keeping the components of each object
literal built in Api._makeRequest and Api._ErrorHandler. -/
inductive Payload where
  | rateLimited (typeTag : String) (success : Bool) (message : String) (time : Int)
  | responseEv (data : ApiData) (params : Params) (time : Int)
  | requestEv (typeTag : String) (url : String) (params : Params) (data : ApiData) (time : Int)
  | errorEv (data : ApiData) (errorCode : String) (typeTag : String)
deriving DecidableEq

/-- An emitted event: the emitter channel name (first argument of
eventEmitter.emit) and the payload. -/
structure Event where
  channel : String
  payload : Payload
deriving DecidableEq

/-- A logger line; logger.error("Error", data.data) keeps the whole payload
object, hence the dedicated constructor. -/
inductive LogEntry where
  | debug (tag : String) (msg : String)
  | error (tag : String) (msg : String)
  | errorData (tag : String) (d : ApiData)
deriving DecidableEq

/-- The value the promise resolves with on the success path: the response
body spread together with the time field set to the elapsed duration. -/
structure RetVal where
  data : ApiData
  time : Int
deriving DecidableEq

/-- The validateStatus predicate passed to the axios request in
Api._makeRequest: 200 plus the fixed whitelist 302, 403, 404, 406. -/
def validateStatus (status : Nat) : Bool :=
  status == 200 || status == 302 || status == 403 || status == 404 || status == 406

/-- What the HTTP layer hands back for one attempt: a network exception with
its message, or a status code together with a structured body. Axios turns a
status rejected by validateStatus into a thrown error. -/
inductive HttpOutcome where
  | netError (msg : String)
  | gotStatus (status : Nat) (data : ApiData)
deriving DecidableEq

/-- Whether the attempt's axios call throws (transport-level failure): a
network error, or a delivered status outside the validateStatus whitelist. -/
def failsTransport : HttpOutcome → Bool
  | .netError _ => true
  | .gotStatus s _ => !validateStatus s

/-- The message logged in the catch block for a transport-level failure:
the network error message, or the axios message for a rejected status. -/
def failLogMsg : HttpOutcome → String
  | .netError m => m
  | .gotStatus s _ => "Request failed with status code " ++ toString s

/-- Environment of one invocation of _makeRequest: either hasHitRateLimit()
returned true (carrying the wait string getTimeUntilCanMakeRequestString()
produced), or admission passed and the transport produced the outcome. -/
inductive AttemptEnv where
  | limited (wait : String)
  | proceed (outcome : HttpOutcome)
deriving DecidableEq

/-- Message of the synthetic rate-limited response event in _makeRequest. -/
def rlMessage (wait : String) : String :=
  "Client Api rate limit hit please wait " ++ wait

/-- Api._ErrorHandler: when data.data.success is strictly true it returns
without doing anything; otherwise it emits an error event carrying the
spread payload, errorCode "Unknown" and the endpoint tag, and logs the
payload object. -/
def _ErrorHandler (d : ApiData) (type : String) : List Event × List LogEntry :=
  if d.success = true then ([], [])
  else ([⟨"error", .errorEv d "Unknown" type⟩], [.errorData "Error" d])

/-- The closed set of error classification codes the seller client ever
attaches to an error event; _ErrorHandler always uses "Unknown". -/
def errorCodes : List String := ["Unknown"]

/-- Observable outcome of running _makeRequest over a trace of attempt
environments: the emitted events, the log lines, the Date.now() counter
after the run, and the promise outcome — none while the call is still
blocked inside the trace, some none for the catch path (which falls
through and resolves undefined), some (some v) for a normal resolution. -/
structure RunOut where
  events : List Event
  logs : List LogEntry
  ctr : Nat
  result : Option (Option RetVal)
deriving DecidableEq

/-- Api._makeRequest, shallowly embedded. clock n is the value returned by
the n-th call to Date.now(); url is the axios instance's baseURL; each trace
element drives one invocation (the rate-limited branch awaits
waitUntilCanMakeRequest() and then recurses on the rest of the trace). -/
def _makeRequest (clock : Nat → Int) (url : String) (req : MakeRequest) :
    List AttemptEnv → Nat → RunOut
  | [], n => ⟨[], [], n, none⟩
  | .limited w :: rest, n =>
    let startTime := clock n
    let out := _makeRequest clock url req rest (n + 2)
    ⟨⟨"response", .rateLimited "ratelimit" false (rlMessage w) (startTime - clock (n + 1))⟩ ::
       out.events,
     .debug "request" "Making a request to keyauth API." ::
       .debug "request" ("Rate limit hit please wait " ++ w) :: out.logs,
     out.ctr, out.result⟩
  | .proceed (.netError m) :: _, n =>
    ⟨[], [.debug "request" "Making a request to keyauth API.", .error "Error" m],
     n + 1, some none⟩
  | .proceed (.gotStatus s d) :: _, n =>
    if validateStatus s then
      let startTime := clock n
      let responseTime := clock (n + 1) - startTime
      ⟨(if req.skipError then [] else (_ErrorHandler d req.params.type).1) ++
         (if req.skipResponse then []
          else [⟨"response", .responseEv d req.params responseTime⟩]) ++
         [⟨"request", .requestEv req.params.type url req.params d responseTime⟩],
       .debug "request" "Making a request to keyauth API." ::
         (if req.skipError then [] else (_ErrorHandler d req.params.type).2),
       n + 2, some (some ⟨d, responseTime⟩)⟩
    else
      ⟨[], [.debug "request" "Making a request to keyauth API.",
            .error "Error" (failLogMsg (.gotStatus s d))],
       n + 1, some none⟩

/-- Whether a payload is the synthetic rate-limited notification. -/
def isSyntheticRL : Payload → Bool
  | .rateLimited _ _ _ _ => true
  | _ => false

/-- The synthetic events produced by a run whose first attempts are all rate
limited, with the given wait strings, starting at clock counter n. -/
def rlEvents (clock : Nat → Int) : List String → Nat → List Event
  | [], _ => []
  | w :: ws, n =>
    ⟨"response", .rateLimited "ratelimit" false (rlMessage w) (clock n - clock (n + 1))⟩ ::
      rlEvents clock ws (n + 2)

/-- The log lines produced by a run of rate-limited attempts. -/
def rlLogs : List String → List LogEntry
  | [] => []
  | w :: ws =>
    .debug "request" "Making a request to keyauth API." ::
      .debug "request" ("Rate limit hit please wait " ++ w) :: rlLogs ws

/-- Modelled from the spec: the RateLimiter implementation
(src/packages/seller/src/utils/rateLimiter.ts) is not part of the available
sources — only its call sites are — so the token bucket is taken from the
specification's contract (capacity, current tokens, time to add one token,
timestamp of the last refill). -/
structure RateLimiter where
  capacity : Int
  tokens : Int
  refillIntervalMs : Int
  lastRefillAt : Int
deriving DecidableEq

/-- Modelled from the spec: create a limiter from caller-supplied
maxTokens and refillRate, starting with a full bucket. -/
def RateLimiter.create (maxTokens refillRate now : Int) : RateLimiter :=
  ⟨maxTokens, maxTokens, refillRate, now⟩

/-- Modelled from the spec: lazily apply owed refills — add
floor(elapsed / refillIntervalMs) tokens capped at capacity and advance
lastRefillAt by the granted whole intervals. -/
def RateLimiter.refill (rl : RateLimiter) (now : Int) : RateLimiter :=
  { rl with
      tokens := min rl.capacity
        (rl.tokens + (now - rl.lastRefillAt) / rl.refillIntervalMs),
      lastRefillAt := rl.lastRefillAt +
        (now - rl.lastRefillAt) / rl.refillIntervalMs * rl.refillIntervalMs }

/-- Modelled from the spec: admitted() applies owed refills and reports
whether at least one token is available, with no other side effect. -/
def RateLimiter.admitted (rl : RateLimiter) (now : Int) : Bool × RateLimiter :=
  let rl' := rl.refill now
  (decide (1 ≤ rl'.tokens), rl')

/-- Modelled from the spec: consume() decrements the token count by one;
the caller must have just observed admitted() = true. -/
def RateLimiter.consume (rl : RateLimiter) : RateLimiter :=
  { rl with tokens := rl.tokens - 1 }

/-- An operation on the shared bucket: a bare admission check (refill only),
or the atomic admission-check-then-consume critical section the spec
requires for dispatching a request. -/
inductive RLOp where
  | check
  | checkConsume
deriving DecidableEq

/-- One operation applied at absolute time now. -/
def RateLimiter.step (rl : RateLimiter) (now : Int) : RLOp → RateLimiter
  | .check => (rl.admitted now).2
  | .checkConsume =>
    if (rl.admitted now).1 then (rl.admitted now).2.consume else (rl.admitted now).2

/-- A sequence of operations, each separated from the previous one by a
known elapsed time in milliseconds. -/
def RateLimiter.run (rl : RateLimiter) (now : Int) : List (Nat × RLOp) → RateLimiter
  | [] => rl
  | (dt, op) :: rest => (rl.step (now + dt) op).run (now + dt) rest

/-- Well-formedness of a bucket at time now: token count within bounds, the
refill timestamp not in the future, a positive refill interval. -/
def RLInv (rl : RateLimiter) (now : Int) : Prop :=
  0 ≤ rl.tokens ∧ rl.tokens ≤ rl.capacity ∧ rl.lastRefillAt ≤ now ∧ 0 < rl.refillIntervalMs

lemma makeRequest_limited (clock : Nat → Int) (url : String) (req : MakeRequest)
    (w : String) (rest : List AttemptEnv) (n : Nat) :
    _makeRequest clock url req (.limited w :: rest) n =
      ⟨⟨"response", .rateLimited "ratelimit" false (rlMessage w) (clock n - clock (n + 1))⟩ ::
         (_makeRequest clock url req rest (n + 2)).events,
       .debug "request" "Making a request to keyauth API." ::
         .debug "request" ("Rate limit hit please wait " ++ w) ::
         (_makeRequest clock url req rest (n + 2)).logs,
       (_makeRequest clock url req rest (n + 2)).ctr,
       (_makeRequest clock url req rest (n + 2)).result⟩ := rfl

lemma run_limited_map (clock : Nat → Int) (url : String) (req : MakeRequest)
    (ws : List String) (rest : List AttemptEnv) (n : Nat) :
    _makeRequest clock url req (ws.map AttemptEnv.limited ++ rest) n =
      ⟨rlEvents clock ws n ++ (_makeRequest clock url req rest (n + 2 * ws.length)).events,
       rlLogs ws ++ (_makeRequest clock url req rest (n + 2 * ws.length)).logs,
       (_makeRequest clock url req rest (n + 2 * ws.length)).ctr,
       (_makeRequest clock url req rest (n + 2 * ws.length)).result⟩ := by
  induction ws generalizing n with
  | nil => simp [rlEvents, rlLogs]
  | cons w ws ih =>
    have harith : n + 2 + 2 * ws.length = n + 2 * (w :: ws).length := by
      simp [List.length_cons]; ring
    show _makeRequest clock url req (.limited w :: (ws.map AttemptEnv.limited ++ rest)) n = _
    rw [makeRequest_limited, ih (n + 2), harith]
    rfl

lemma makeRequest_ok (clock : Nat → Int) (url : String) (req : MakeRequest)
    (s : Nat) (d : ApiData) (rest : List AttemptEnv) (n : Nat)
    (hs : validateStatus s = true) :
    _makeRequest clock url req (.proceed (.gotStatus s d) :: rest) n =
      ⟨(if req.skipError then [] else (_ErrorHandler d req.params.type).1) ++
         (if req.skipResponse then []
          else [⟨"response", .responseEv d req.params (clock (n + 1) - clock n)⟩]) ++
         [⟨"request", .requestEv req.params.type url req.params d (clock (n + 1) - clock n)⟩],
       .debug "request" "Making a request to keyauth API." ::
         (if req.skipError then [] else (_ErrorHandler d req.params.type).2),
       n + 2, some (some ⟨d, clock (n + 1) - clock n⟩)⟩ := by
  simp only [_makeRequest, hs, if_true]

lemma run_limited_map_events (clock : Nat → Int) (url : String) (req : MakeRequest)
    (ws : List String) (rest : List AttemptEnv) (n : Nat) :
    (_makeRequest clock url req (ws.map AttemptEnv.limited ++ rest) n).events =
      rlEvents clock ws n ++
        (_makeRequest clock url req rest (n + 2 * ws.length)).events := by
  rw [run_limited_map]

lemma run_limited_map_result (clock : Nat → Int) (url : String) (req : MakeRequest)
    (ws : List String) (rest : List AttemptEnv) (n : Nat) :
    (_makeRequest clock url req (ws.map AttemptEnv.limited ++ rest) n).result =
      (_makeRequest clock url req rest (n + 2 * ws.length)).result := by
  rw [run_limited_map]

lemma makeRequest_ok_events (clock : Nat → Int) (url : String) (req : MakeRequest)
    (s : Nat) (d : ApiData) (rest : List AttemptEnv) (n : Nat)
    (hs : validateStatus s = true) :
    (_makeRequest clock url req (.proceed (.gotStatus s d) :: rest) n).events =
      (if req.skipError then [] else (_ErrorHandler d req.params.type).1) ++
        (if req.skipResponse then []
         else [⟨"response", .responseEv d req.params (clock (n + 1) - clock n)⟩]) ++
        [⟨"request", .requestEv req.params.type url req.params d (clock (n + 1) - clock n)⟩] := by
  rw [makeRequest_ok _ _ _ _ _ _ _ hs]

lemma makeRequest_ok_result (clock : Nat → Int) (url : String) (req : MakeRequest)
    (s : Nat) (d : ApiData) (rest : List AttemptEnv) (n : Nat)
    (hs : validateStatus s = true) :
    (_makeRequest clock url req (.proceed (.gotStatus s d) :: rest) n).result =
      some (some ⟨d, clock (n + 1) - clock n⟩) := by
  rw [makeRequest_ok _ _ _ _ _ _ _ hs]

lemma rlEvents_filter_channel (clock : Nat → Int) (c : String) (hc : ("response" == c) = false)
    (ws : List String) (n : Nat) :
    (rlEvents clock ws n).filter (fun e => e.channel == c) = [] := by
  induction ws generalizing n with
  | nil => rfl
  | cons w ws ih =>
    rw [rlEvents, List.filter_cons]
    simpa [hc] using ih (n + 2)

lemma rlEvents_filter_synthetic (clock : Nat → Int) (ws : List String) (n : Nat) :
    (rlEvents clock ws n).filter (fun e => isSyntheticRL e.payload) = rlEvents clock ws n := by
  induction ws generalizing n with
  | nil => rfl
  | cons w ws ih =>
    rw [rlEvents, List.filter_cons]
    simpa [isSyntheticRL] using ih (n + 2)

lemma rlEvents_replicate (clock : Nat → Int) (w : String) (k n : Nat) :
    rlEvents clock (List.replicate k w) n =
      (List.range k).map (fun i =>
        ⟨"response", .rateLimited "ratelimit" false (rlMessage w)
          (clock (n + 2 * i) - clock (n + 2 * i + 1))⟩) := by
  induction k generalizing n with
  | zero => rfl
  | succ k ih =>
    rw [List.replicate_succ, rlEvents, ih (n + 2), List.range_succ_eq_map, List.map_cons,
      List.map_map]
    congr 1
    refine List.map_congr_left ?_
    simp only [Function.comp, Nat.succ_eq_add_one, List.mem_range]
    intro i _
    have h : n + 2 + 2 * i = n + 2 * (i + 1) := by ring
    rw [h]

lemma refill_inv (rl : RateLimiter) (now now' : Int) (h : RLInv rl now)
    (hle : now ≤ now') : RLInv (rl.refill now') now' := by
  obtain ⟨h0, hc, hl, hi⟩ := h
  have hnn : 0 ≤ (now' - rl.lastRefillAt) / rl.refillIntervalMs :=
    Int.ediv_nonneg (by omega) (le_of_lt hi)
  have hdm := Int.ediv_add_emod (now' - rl.lastRefillAt) rl.refillIntervalMs
  have hmod := Int.emod_nonneg (now' - rl.lastRefillAt) (ne_of_gt hi)
  have hmul : (now' - rl.lastRefillAt) / rl.refillIntervalMs * rl.refillIntervalMs ≤
      now' - rl.lastRefillAt := by
    have hcomm : (now' - rl.lastRefillAt) / rl.refillIntervalMs * rl.refillIntervalMs =
        rl.refillIntervalMs * ((now' - rl.lastRefillAt) / rl.refillIntervalMs) := mul_comm _ _
    linarith
  refine ⟨le_min (by omega) (by omega), min_le_left _ _, by
    simp only [RateLimiter.refill]
    linarith, hi⟩

lemma refill_mono (rl : RateLimiter) (now now' : Int) (h : RLInv rl now)
    (hle : now ≤ now') : rl.tokens ≤ (rl.refill now').tokens := by
  obtain ⟨h0, hc, hl, hi⟩ := h
  have hnn : 0 ≤ (now' - rl.lastRefillAt) / rl.refillIntervalMs :=
    Int.ediv_nonneg (by omega) (le_of_lt hi)
  exact le_min hc (by omega)

lemma step_inv (rl : RateLimiter) (now now' : Int) (op : RLOp) (h : RLInv rl now)
    (hle : now ≤ now') : RLInv (rl.step now' op) now' := by
  have hr := refill_inv rl now now' h hle
  cases op with
  | check => exact hr
  | checkConsume =>
    obtain ⟨a, b, c, d⟩ := hr
    simp only [RateLimiter.step, RateLimiter.admitted]
    by_cases h1 : (1 : Int) ≤ (rl.refill now').tokens
    · rw [if_pos (decide_eq_true h1)]
      exact ⟨by dsimp only [RateLimiter.consume]; omega,
        by dsimp only [RateLimiter.consume]; omega, c, d⟩
    · rw [if_neg (fun hh => h1 (of_decide_eq_true hh))]
      exact ⟨a, b, c, d⟩

lemma step_capacity (rl : RateLimiter) (now : Int) (op : RLOp) :
    (rl.step now op).capacity = rl.capacity := by
  cases op with
  | check => rfl
  | checkConsume =>
    simp only [RateLimiter.step]
    split <;> rfl

lemma run_capacity (ops : List (Nat × RLOp)) (rl : RateLimiter) (now : Int) :
    (rl.run now ops).capacity = rl.capacity := by
  induction ops generalizing rl now with
  | nil => rfl
  | cons p rest ih =>
    obtain ⟨dt, op⟩ := p
    rw [RateLimiter.run, ih, step_capacity]

lemma run_inv (ops : List (Nat × RLOp)) (rl : RateLimiter) (now : Int)
    (h : RLInv rl now) : ∃ now', RLInv (rl.run now ops) now' := by
  induction ops generalizing rl now with
  | nil => exact ⟨now, h⟩
  | cons p rest ih =>
    obtain ⟨dt, op⟩ := p
    exact ih _ _ (step_inv rl now (now + dt) op h (by omega))

/-- C1: counterexample. On a dispatched call whose admission check fails, the
run emits three events and none of them is on the "ratelimit" event channel
(the synthetic notification goes to the "response" channel), refuting the
claim that a ratelimit event is emitted on the ratelimit event channel. -/
theorem C1_counterexample :
    ((_makeRequest (fun i => (i : Int)) "https://keyauth.win/api/seller"
        ⟨⟨"add", []⟩, false, false⟩
        [.limited "5 seconds", .proceed (.gotStatus 200 ⟨true, "ok", []⟩)] 0).events.filter
      (fun e => e.channel == "ratelimit") = []) ∧
    (_makeRequest (fun i => (i : Int)) "https://keyauth.win/api/seller"
        ⟨⟨"add", []⟩, false, false⟩
        [.limited "5 seconds", .proceed (.gotStatus 200 ⟨true, "ok", []⟩)] 0).events.length = 3 := by
  exact ⟨rfl, rfl⟩

/-- C1 (amended): for every dispatched call whose admission check fails, a
synthetic rate-limited notification — type tag "ratelimit", success false,
message carrying the human-readable wait duration, time startTime minus the
current time — is emitted on the "response" event channel, before every
event of the retry/blocking step. -/
theorem C1_synthetic_event_before_retry (clock : Nat → Int) (url : String)
    (req : MakeRequest) (w : String) (rest : List AttemptEnv) (n : Nat) :
    (_makeRequest clock url req (.limited w :: rest) n).events =
      ⟨"response", .rateLimited "ratelimit" false (rlMessage w) (clock n - clock (n + 1))⟩ ::
        (_makeRequest clock url req rest (n + 2)).events := rfl

/-- C2: counterexample. With skipResponse set to true and the admission check
failing, one event is still emitted on the "response" event channel — the
synthetic rate-limited notification, for which there is no opt-out —
refuting the claim that no response event is emitted for such a call. -/
theorem C2_counterexample :
    ((_makeRequest (fun i => (i : Int)) "https://keyauth.win/api/seller"
        ⟨⟨"add", []⟩, true, false⟩
        [.limited "5 seconds", .proceed (.gotStatus 200 ⟨true, "ok", []⟩)] 0).events.countP
      (fun e => e.channel == "response")) = 1 := rfl

/-- C2 (amended): with skipResponse set to true no response event is emitted
for the normal outcome of a dispatched call — every event on the "response"
channel of any run is the synthetic rate-limited notification, which is
emitted regardless of the flag (the caller cannot opt out of it). -/
theorem C2_skipResponse_suppresses_normal_response (clock : Nat → Int)
    (url : String) (p : Params) (se : Bool) (env : List AttemptEnv) (n : Nat) :
    ((_makeRequest clock url ⟨p, true, se⟩ env n).events.all
      (fun e => e.channel != "response" || isSyntheticRL e.payload)) = true := by
  induction env generalizing n with
  | nil => rfl
  | cons e rest ih =>
    cases e with
    | limited w =>
      rw [makeRequest_limited, List.all_cons]
      simpa [isSyntheticRL] using ih (n + 2)
    | proceed o =>
      cases o with
      | netError m => rfl
      | gotStatus s d =>
        cases hv : validateStatus s
        · simp [_makeRequest, hv]
        · rw [makeRequest_ok_events clock url ⟨p, true, se⟩ s d rest n hv]
          obtain ⟨ds, dm, dr⟩ := d
          cases se <;> cases ds <;> rfl

/-- C3: for every dispatched call whose transport call succeeds (any number
of rate-limited attempts, then a whitelisted status), an error event is
published iff the payload's success flag is false and skipError was not set;
the event carries the original payload, the classification code "Unknown"
drawn from the fixed closed set errorCodes, and the endpoint tag. -/
theorem C3_error_event_characterization (clock : Nat → Int) (url : String)
    (p : Params) (sr se : Bool) (ws : List String) (s : Nat) (d : ApiData) (n : Nat)
    (hs : validateStatus s = true) :
    ((_makeRequest clock url ⟨p, sr, se⟩
        (ws.map .limited ++ [.proceed (.gotStatus s d)]) n).events.filter
        (fun e => e.channel == "error") =
      if !se && !d.success then [⟨"error", .errorEv d "Unknown" p.type⟩] else []) ∧
    "Unknown" ∈ errorCodes := by
  refine ⟨?_, by simp [errorCodes]⟩
  rw [run_limited_map_events, List.filter_append, rlEvents_filter_channel clock "error" rfl,
    List.nil_append, makeRequest_ok_events clock url ⟨p, sr, se⟩ s d [] _ hs]
  obtain ⟨ds, dm, dr⟩ := d
  cases se <;> cases ds <;> cases sr <;> rfl

/-- C3 witness: a concrete run with a failing payload and no suppression
publishes exactly the classified error event. -/
theorem C3_witness :
    validateStatus 200 = true ∧
    (((_makeRequest (fun i => (i : Int)) "https://keyauth.win/api/seller"
        ⟨⟨"add", []⟩, false, false⟩
        (([] : List String).map .limited ++
          [.proceed (.gotStatus 200 ⟨false, "invalid", []⟩)]) 0).events.filter
        (fun e => e.channel == "error") =
      if !false && !(ApiData.mk false "invalid" []).success then
        [⟨"error", .errorEv ⟨false, "invalid", []⟩ "Unknown" (Params.mk "add" []).type⟩]
      else []) ∧
    "Unknown" ∈ errorCodes) :=
  ⟨rfl, C3_error_event_characterization (fun i => (i : Int))
    "https://keyauth.win/api/seller" ⟨"add", []⟩ false false [] 200
    ⟨false, "invalid", []⟩ 0 rfl⟩

/-- C4: for every dispatched call whose transport call succeeds, exactly one
request (audit) event fires, carrying the endpoint tag, the base url, the
request parameters, the response payload and the elapsed duration of the
final attempt, regardless of the suppression flags and of the payload's
success flag. -/
theorem C4_request_audit_event (clock : Nat → Int) (url : String)
    (p : Params) (sr se : Bool) (ws : List String) (s : Nat) (d : ApiData) (n : Nat)
    (hs : validateStatus s = true) :
    (_makeRequest clock url ⟨p, sr, se⟩
        (ws.map .limited ++ [.proceed (.gotStatus s d)]) n).events.filter
        (fun e => e.channel == "request") =
      [⟨"request", .requestEv p.type url p d
          (clock (n + 2 * ws.length + 1) - clock (n + 2 * ws.length))⟩] := by
  rw [run_limited_map_events, List.filter_append, rlEvents_filter_channel clock "request" rfl,
    List.nil_append, makeRequest_ok_events clock url ⟨p, sr, se⟩ s d [] _ hs]
  obtain ⟨ds, dm, dr⟩ := d
  cases se <;> cases ds <;> cases sr <;> rfl

/-- C4 witness: a concrete rate-limited-then-delivered run fires exactly one
audit event even with both suppression flags set and a failing payload. -/
theorem C4_witness :
    validateStatus 403 = true ∧
    (_makeRequest (fun i => (i : Int)) "https://keyauth.win/api/seller"
        ⟨⟨"verify", []⟩, true, true⟩
        (["2 seconds"].map .limited ++
          [.proceed (.gotStatus 403 ⟨false, "invalid key", []⟩)]) 0).events.filter
        (fun e => e.channel == "request") =
      [⟨"request", .requestEv (Params.mk "verify" []).type "https://keyauth.win/api/seller"
          ⟨"verify", []⟩ ⟨false, "invalid key", []⟩
          ((fun i => (i : Int)) (0 + 2 * (["2 seconds"] : List String).length + 1) -
            (fun i => (i : Int)) (0 + 2 * (["2 seconds"] : List String).length))⟩] :=
  ⟨rfl, C4_request_audit_event (fun i => (i : Int)) "https://keyauth.win/api/seller"
    ⟨"verify", []⟩ true true ["2 seconds"] 403 ⟨false, "invalid key", []⟩ 0 rfl⟩

/-- C5: for every dispatched call whose transport call succeeds, the promise
resolves — it is never the catch path and never left pending — with the
response payload merged with the elapsed time (the clock read after the call
minus the final attempt's start time), even when the payload's success flag
is false. -/
theorem C5_resolves_with_elapsed (clock : Nat → Int) (url : String)
    (p : Params) (sr se : Bool) (ws : List String) (s : Nat) (d : ApiData) (n : Nat)
    (hs : validateStatus s = true) :
    (_makeRequest clock url ⟨p, sr, se⟩
        (ws.map .limited ++ [.proceed (.gotStatus s d)]) n).result =
      some (some ⟨d, clock (n + 2 * ws.length + 1) - clock (n + 2 * ws.length)⟩) := by
  rw [run_limited_map_result, makeRequest_ok_result clock url ⟨p, sr, se⟩ s d [] _ hs]

/-- C5 witness: a concrete run with a failing payload still resolves with the
payload plus its elapsed time. -/
theorem C5_witness :
    validateStatus 406 = true ∧
    (_makeRequest (fun i => (i : Int)) "https://keyauth.win/api/seller"
        ⟨⟨"del", []⟩, false, false⟩
        (([] : List String).map .limited ++
          [.proceed (.gotStatus 406 ⟨false, "license does not exist", []⟩)]) 0).result =
      some (some ⟨⟨false, "license does not exist", []⟩,
        (fun i => (i : Int)) (0 + 2 * ([] : List String).length + 1) -
          (fun i => (i : Int)) (0 + 2 * ([] : List String).length)⟩) :=
  ⟨rfl, C5_resolves_with_elapsed (fun i => (i : Int)) "https://keyauth.win/api/seller"
    ⟨"del", []⟩ false false [] 406 ⟨false, "license does not exist", []⟩ 0 rfl⟩

/-- C6: on a transport-level failure (a network exception or a status the
whitelist rejects) the attempt publishes no events at all — in particular no
response and no request event — the failure is logged through the error
level of the logger, and the promise resolves with the fixed sentinel
undefined (some none), which is distinct from every success-shaped
resolution some (some v). -/
theorem C6_transport_failure (clock : Nat → Int) (url : String)
    (req : MakeRequest) (f : HttpOutcome) (rest : List AttemptEnv) (n : Nat)
    (hf : failsTransport f = true) :
    (_makeRequest clock url req (.proceed f :: rest) n).events = [] ∧
    (_makeRequest clock url req (.proceed f :: rest) n).result = some none ∧
    (_makeRequest clock url req (.proceed f :: rest) n).logs =
      [.debug "request" "Making a request to keyauth API.",
       .error "Error" (failLogMsg f)] := by
  cases f with
  | netError m => exact ⟨rfl, rfl, rfl⟩
  | gotStatus s d =>
    have hv : validateStatus s = false := by
      have := hf
      simp only [failsTransport, Bool.not_eq_true'] at this
      exact this
    refine ⟨?_, ?_, ?_⟩ <;> simp [_makeRequest, hv, failLogMsg]

/-- C6 witness: a concrete network failure yields no events, the undefined
sentinel and an error log line. -/
theorem C6_witness :
    failsTransport (.netError "socket hang up") = true ∧
    ((_makeRequest (fun i => (i : Int)) "https://keyauth.win/api/seller"
        ⟨⟨"add", []⟩, false, false⟩
        [.proceed (.netError "socket hang up")] 0).events = [] ∧
    (_makeRequest (fun i => (i : Int)) "https://keyauth.win/api/seller"
        ⟨⟨"add", []⟩, false, false⟩
        [.proceed (.netError "socket hang up")] 0).result = some none ∧
    (_makeRequest (fun i => (i : Int)) "https://keyauth.win/api/seller"
        ⟨⟨"add", []⟩, false, false⟩
        [.proceed (.netError "socket hang up")] 0).logs =
      [.debug "request" "Making a request to keyauth API.",
       .error "Error" (failLogMsg (.netError "socket hang up"))]) :=
  ⟨rfl, C6_transport_failure (fun i => (i : Int)) "https://keyauth.win/api/seller"
    ⟨⟨"add", []⟩, false, false⟩ (.netError "socket hang up") [] 0 rfl⟩

/-- C7: when the admission check fails the dispatcher blocks and retries as a
fresh attempt: for every number k of consecutive rate-limited attempts the
run emits exactly the k synthetic notifications, each timed with its own
pair of clock reads, and finally resolves using the admitted attempt's own
start time — there is no retry cap. -/
theorem C7_retry_until_admitted (clock : Nat → Int) (url : String)
    (p : Params) (sr se : Bool) (w : String) (s : Nat) (d : ApiData) (n k : Nat)
    (hs : validateStatus s = true) :
    ((_makeRequest clock url ⟨p, sr, se⟩
        (List.replicate k (.limited w) ++ [.proceed (.gotStatus s d)]) n).events.filter
      (fun e => isSyntheticRL e.payload) =
      (List.range k).map (fun i =>
        ⟨"response", .rateLimited "ratelimit" false (rlMessage w)
          (clock (n + 2 * i) - clock (n + 2 * i + 1))⟩)) ∧
    (_makeRequest clock url ⟨p, sr, se⟩
        (List.replicate k (.limited w) ++ [.proceed (.gotStatus s d)]) n).result =
      some (some ⟨d, clock (n + 2 * k + 1) - clock (n + 2 * k)⟩) := by
  have hrepl : List.replicate k (AttemptEnv.limited w) =
      (List.replicate k w).map AttemptEnv.limited := (List.map_replicate).symm
  rw [hrepl]
  constructor
  · rw [run_limited_map_events, List.filter_append, rlEvents_filter_synthetic,
      rlEvents_replicate, List.length_replicate,
      makeRequest_ok_events clock url ⟨p, sr, se⟩ s d [] _ hs]
    obtain ⟨ds, dm, dr⟩ := d
    cases se <;> cases ds <;> cases sr <;> simp [_ErrorHandler, isSyntheticRL]
  · rw [run_limited_map_result, List.length_replicate,
      makeRequest_ok_result clock url ⟨p, sr, se⟩ s d [] _ hs]

/-- C7 witness: two rate-limited attempts followed by an admitted one emit
two synthetic notifications and resolve with the third attempt's timing. -/
theorem C7_witness :
    validateStatus 200 = true ∧
    (((_makeRequest (fun i => (i : Int)) "https://keyauth.win/api/seller"
        ⟨⟨"add", []⟩, false, false⟩
        (List.replicate 2 (.limited "5 seconds") ++
          [.proceed (.gotStatus 200 ⟨true, "ok", []⟩)]) 0).events.filter
      (fun e => isSyntheticRL e.payload) =
      (List.range 2).map (fun i =>
        ⟨"response", .rateLimited "ratelimit" false (rlMessage "5 seconds")
          ((fun i => (i : Int)) (0 + 2 * i) - (fun i => (i : Int)) (0 + 2 * i + 1))⟩)) ∧
    (_makeRequest (fun i => (i : Int)) "https://keyauth.win/api/seller"
        ⟨⟨"add", []⟩, false, false⟩
        (List.replicate 2 (.limited "5 seconds") ++
          [.proceed (.gotStatus 200 ⟨true, "ok", []⟩)]) 0).result =
      some (some ⟨⟨true, "ok", []⟩,
        (fun i => (i : Int)) (0 + 2 * 2 + 1) - (fun i => (i : Int)) (0 + 2 * 2)⟩)) :=
  ⟨rfl, C7_retry_until_admitted (fun i => (i : Int)) "https://keyauth.win/api/seller"
    ⟨"add", []⟩ false false "5 seconds" 200 ⟨true, "ok", []⟩ 0 2 rfl⟩

/-- C8: the transport call treats exactly the statuses 200, 302, 403, 404 and
406 as deliverable; a delivered whitelisted status resolves carrying the body
(so the outcome is classified by the payload's content), while any status
outside the whitelist resolves through the transport-failure path. -/
theorem C8_status_whitelist (clock : Nat → Int) (url : String)
    (req : MakeRequest) (s : Nat) (d : ApiData) (n : Nat) :
    (validateStatus s = true ↔ s ∈ ([200, 302, 403, 404, 406] : List Nat)) ∧
    (_makeRequest clock url req [.proceed (.gotStatus s d)] n).result =
      (if validateStatus s then some (some ⟨d, clock (n + 1) - clock n⟩)
       else some none) := by
  constructor
  · simp only [validateStatus, Bool.or_eq_true, beq_iff_eq, List.mem_cons,
      List.not_mem_nil, or_false]
    tauto
  · cases hv : validateStatus s
    · simp [_makeRequest, hv]
    · rw [if_pos rfl, makeRequest_ok_result clock url req s d [] n hv]

lemma rateLimited_time_aux (clock : Nat → Int) (url : String) (req : MakeRequest)
    (hm : ∀ i j : Nat, i ≤ j → clock i ≤ clock j) :
    ∀ (env : List AttemptEnv) (n : Nat) (tt : String) (su : Bool) (m : String) (t : Int),
      (⟨"response", .rateLimited tt su m t⟩ : Event) ∈
        (_makeRequest clock url req env n).events → t ≤ 0 := by
  intro env
  induction env with
  | nil =>
    intro n tt su m t hmem
    simp [_makeRequest] at hmem
  | cons e rest ih =>
    intro n tt su m t hmem
    cases e with
    | limited w =>
      rw [makeRequest_limited] at hmem
      rcases List.mem_cons.mp hmem with h | h
      · injection h with h1 h2
        injection h2 with a b c dd
        subst dd
        have hcl := hm n (n + 1) (Nat.le_succ n)
        linarith
      · exact ih (n + 2) tt su m t h
    | proceed o =>
      cases o with
      | netError mm => simp [_makeRequest] at hmem
      | gotStatus s d =>
        cases hv : validateStatus s
        · simp [_makeRequest, hv] at hmem
        · rw [makeRequest_ok_events clock url req s d rest n hv] at hmem
          by_cases hse : req.skipError <;> by_cases hsr : req.skipResponse <;>
            by_cases hds : d.success = true <;>
            simp [hse, hsr, hds, _ErrorHandler] at hmem

/-- C9: (modelled from the spec, the rate limiter source being absent) over
every sequence of admission checks and atomic check-then-consume operations
separated by known elapsed times, a well-formed bucket keeps its token count
within zero and its capacity; a bare admission check — which only applies
the lazy refill — never decreases the count, and the consume step removes
exactly one token and only when admission succeeded. -/
theorem C9_token_bucket_invariant (rl : RateLimiter) (now : Int)
    (ops : List (Nat × RLOp)) (dt : Nat) (h : RLInv rl now) :
    (0 ≤ (rl.run now ops).tokens ∧ (rl.run now ops).tokens ≤ rl.capacity) ∧
    rl.tokens ≤ (rl.step (now + dt) .check).tokens ∧
    (rl.step (now + dt) .checkConsume).tokens =
      (rl.refill (now + dt)).tokens -
        (if 1 ≤ (rl.refill (now + dt)).tokens then 1 else 0) := by
  refine ⟨?_, ?_, ?_⟩
  · obtain ⟨now', hinv⟩ := run_inv ops rl now h
    have hcap := run_capacity ops rl now
    exact ⟨hinv.1, by rw [← hcap]; exact hinv.2.1⟩
  · exact refill_mono rl now (now + dt) h (by omega)
  · simp only [RateLimiter.step, RateLimiter.admitted]
    by_cases h1 : (1 : Int) ≤ (rl.refill (now + dt)).tokens
    · rw [if_pos (decide_eq_true h1), if_pos h1]
      rfl
    · rw [if_neg (fun hh => h1 (of_decide_eq_true hh)), if_neg h1]
      omega

/-- C9 witness: a concrete bucket of capacity 10 run through a consume and a
later bare check stays within bounds, and the single-step facts hold at a
7-second offset. -/
theorem C9_witness :
    ((0 ≤ ((RateLimiter.mk 10 10 5000 0).run 0
        [(0, .checkConsume), (12000, .check)]).tokens ∧
      ((RateLimiter.mk 10 10 5000 0).run 0
        [(0, .checkConsume), (12000, .check)]).tokens ≤
        (RateLimiter.mk 10 10 5000 0).capacity) ∧
    (RateLimiter.mk 10 10 5000 0).tokens ≤
      ((RateLimiter.mk 10 10 5000 0).step ((0 : Int) + ((7000 : Nat) : Int))
        .check).tokens ∧
    ((RateLimiter.mk 10 10 5000 0).step ((0 : Int) + ((7000 : Nat) : Int))
        .checkConsume).tokens =
      ((RateLimiter.mk 10 10 5000 0).refill ((0 : Int) + ((7000 : Nat) : Int))).tokens -
        (if 1 ≤ ((RateLimiter.mk 10 10 5000 0).refill
            ((0 : Int) + ((7000 : Nat) : Int))).tokens then 1 else 0)) :=
  C9_token_bucket_invariant ⟨10, 10, 5000, 0⟩ 0 [(0, .checkConsume), (12000, .check)]
    7000 ⟨by decide, by decide, by decide, by decide⟩

/-- C10: the synthetic rate-limited notification is timed with startTime
minus the current time — the head event of a rate-limited attempt carries
clock n minus the following clock read — and whenever the clock is monotone
every such time field is at most zero, unlike the positive elapsed duration
the time field of a normal response represents. -/
theorem C10_rateLimited_time_nonpositive (clock : Nat → Int) (url : String)
    (req : MakeRequest) (env : List AttemptEnv) (n : Nat)
    (tt : String) (su : Bool) (m : String) (t : Int)
    (w : String) (rest : List AttemptEnv) (n' : Nat)
    (hm : ∀ i j : Nat, i ≤ j → clock i ≤ clock j)
    (hmem : (⟨"response", .rateLimited tt su m t⟩ : Event) ∈
      (_makeRequest clock url req env n).events) :
    t ≤ 0 ∧
    ((_makeRequest clock url req (.limited w :: rest) n').events.head? =
      some ⟨"response", .rateLimited "ratelimit" false (rlMessage w)
        (clock n' - clock (n' + 1))⟩) :=
  ⟨rateLimited_time_aux clock url req hm env n tt su m t hmem, rfl⟩

/-- C10 witness: with the identity clock, the synthetic event of a concrete
rate-limited attempt carries time value minus one, which is at most zero. -/
theorem C10_witness :
    ((-1 : Int) ≤ 0 ∧
    ((_makeRequest (fun i => (i : Int)) "https://keyauth.win/api/seller"
        ⟨⟨"add", []⟩, false, false⟩ (.limited "5 seconds" :: []) 0).events.head? =
      some ⟨"response", .rateLimited "ratelimit" false (rlMessage "5 seconds")
        ((fun i => (i : Int)) 0 - (fun i => (i : Int)) (0 + 1))⟩)) :=
  C10_rateLimited_time_nonpositive (fun i => (i : Int))
    "https://keyauth.win/api/seller" ⟨⟨"add", []⟩, false, false⟩
    [.limited "5 seconds"] 0 "ratelimit" false (rlMessage "5 seconds") (-1)
    "5 seconds" [] 0 (fun i j hij => Int.ofNat_le.mpr hij) (by decide)

end KeyauthSeller
